import Mathlib

/-!
Verification of the interactive nationwide + state drilldown map viewer
(`static/main.js`).

The JavaScript program is shallowly embedded: the process-wide mutable
globals (`METRICS_CACHE`, `selectedState`, `currentGeo`, `geoLayer`, the
attached Leaflet layers and the viewport) become fields of explicit state
records that every operation threads through.  JavaScript object identity
for cached metrics records is modelled by a heap (`MetricsState.heap`)
addressed by numeric ids, so that "the identical object" is expressible as
equality of heap addresses.  Fallible code (`throw`, rejected fetches)
returns `Except String`; a `try { .. } catch (_) {}` block is a `match` on
that `Except` whose error branch continues with the code after the block.
The behaviour of the external metrics endpoint is a parameter
(`FetchBehaviour`), and the upstream district topology is passed in as the
already-decoded feature list (fetching and topojson conversion are external
collaborators).
-/

/-- A metrics summary as delivered by `/api/metrics/{state}`.  Only the
`notes` field is ever read or written by the program (`showMetrics`,
`generatePlan`); it may be absent on the wire, hence `Option`. -/
structure Summary where
  notes : Option (List String)
deriving DecidableEq

/-- A metrics record `{ classification, summary }`.  Both fields are read
defensively by the program, hence `Option`. -/
structure MetricsRecord where
  classification : Option String
  summary : Option Summary
deriving DecidableEq

/-- The record installed by `loadMetrics` when the fetch fails:
`{ classification: "unknown", summary: { notes: ["No metrics"] } }`
(main.js line 60). -/
def fallbackRecord : MetricsRecord :=
  { classification := some "unknown"
    summary := some { notes := some ["No metrics"] } }

/-- One response behaviour of the external metrics endpoint for a single
request.  Per the external interface (spec section 6) a successful 2xx
response carries a JSON record. -/
inductive FetchBehaviour where
  | ok (record : MetricsRecord)
  | httpError
  | netThrow
  | badJson
deriving DecidableEq

/-- Failure behaviours: network error, non-success status, unparseable
body. -/
def FetchBehaviour.isFailure : FetchBehaviour → Bool
  | .ok _ => false
  | _ => true

/-- JavaScript object property read: first binding for the key wins.
Writes are modelled by consing the new binding in front, which matches
JavaScript assignment overwriting the key. -/
def objGet {α : Type} : List (String × α) → String → Option α
  | [], _ => none
  | p :: rest, key => if p.1 = key then some p.2 else objGet rest key

/-- The mutable metrics world: `heap` assigns each live record object an
address (its index), `cache` embeds `METRICS_CACHE` as a map from state
code to heap address, and `fetchCount` instruments how many network
requests `loadMetrics` has issued. -/
structure MetricsState where
  heap : List MetricsRecord
  cache : List (String × Nat)
  fetchCount : Nat
deriving DecidableEq

/-- Heap addresses stored in the cache are live. -/
def MetricsState.WF (ms : MetricsState) : Prop :=
  ∀ p ∈ ms.cache, p.2 < ms.heap.length

/-- Models `const resp = await fetch(..); if (resp.ok) { const data = await
resp.json(); .. }` — the fallible body of the `try` block in `loadMetrics`.
`Except.error` is a thrown exception, `Except.ok none` means the `if`
guard failed and control falls through. -/
def fetchMetricsApi : FetchBehaviour → Except String (Option MetricsRecord)
  | .ok r => Except.ok (some r)
  | .httpError => Except.ok none
  | .netThrow => Except.error "TypeError: fetch failed"
  | .badJson => Except.error "SyntaxError: invalid JSON"

/-- `loadMetrics` (main.js lines 50-62): cache hit returns the cached
object; otherwise fetch, cache and return the parsed record on success,
and on any failure (caught exception or non-ok response) cache and return
the fallback record.  The returned `Nat` is the heap address of the
returned record object. -/
def loadMetrics (ms : MetricsState) (code : String) (beh : FetchBehaviour) :
    Except String (MetricsState × Nat) :=
  match objGet ms.cache code with
  | some i => Except.ok (ms, i)
  | none =>
    match fetchMetricsApi beh with
    | Except.ok (some data) =>
        Except.ok ({ heap := ms.heap ++ [data]
                     cache := (code, ms.heap.length) :: ms.cache
                     fetchCount := ms.fetchCount + 1 }, ms.heap.length)
    | Except.ok none =>
        Except.ok ({ heap := ms.heap ++ [fallbackRecord]
                     cache := (code, ms.heap.length) :: ms.cache
                     fetchCount := ms.fetchCount + 1 }, ms.heap.length)
    | Except.error _ =>
        Except.ok ({ heap := ms.heap ++ [fallbackRecord]
                     cache := (code, ms.heap.length) :: ms.cache
                     fetchCount := ms.fetchCount + 1 }, ms.heap.length)

/-- The record a cache miss stores: the parsed data on success, the
fallback on failure. -/
def storedRecord : FetchBehaviour → MetricsRecord
  | .ok r => r
  | _ => fallbackRecord

/-- The `STATE_FIPS` object literal (main.js lines 12-22), in source
order. -/
def STATE_FIPS : List (String × String) :=
  [("AL", "01"), ("AK", "02"), ("AZ", "04"), ("AR", "05"), ("CA", "06"), ("CO", "08"),
   ("CT", "09"), ("DE", "10"), ("FL", "12"), ("GA", "13"), ("HI", "15"), ("ID", "16"),
   ("IL", "17"), ("IN", "18"), ("IA", "19"), ("KS", "20"), ("KY", "21"), ("LA", "22"),
   ("ME", "23"), ("MD", "24"), ("MA", "25"), ("MI", "26"), ("MN", "27"), ("MS", "28"),
   ("MO", "29"), ("MT", "30"), ("NE", "31"), ("NV", "32"), ("NH", "33"), ("NJ", "34"),
   ("NM", "35"), ("NY", "36"), ("NC", "37"), ("ND", "38"), ("OH", "39"), ("OK", "40"),
   ("OR", "41"), ("PA", "42"), ("RI", "44"), ("SC", "45"), ("SD", "46"), ("TN", "47"),
   ("TX", "48"), ("UT", "49"), ("VT", "50"), ("VA", "51"), ("WA", "53"), ("WV", "54"),
   ("WI", "55"), ("WY", "56"), ("DC", "11"), ("PR", "72")]

/-- `FIPS_STATE = Object.fromEntries(Object.entries(STATE_FIPS).map(([k, v])
=> [v, k]))` (main.js line 23).  `Object.fromEntries` keeps the last
binding of a duplicated key; the fips values are pairwise distinct (see the
round-trip theorem below), so first-binding lookup on the mapped list
agrees with it. -/
def FIPS_STATE : List (String × String) :=
  STATE_FIPS.map (fun p => (p.2, p.1))

/-- A district feature: the two property keys the program reads for the
state id, plus its geometry reduced to the vertex list the map library
computes bounds from.  `none` is an absent property. -/
structure Feature where
  STATEFP : Option String
  state : Option String
  coords : List (Int × Int)
deriving DecidableEq

/-- A GeoJSON feature collection. -/
structure FeatureCollection where
  features : List Feature
deriving DecidableEq

/-- JavaScript `a || b || ""` on two possibly-absent string properties:
first truthy value wins, the empty string is falsy. -/
def jsOrStr (a b : Option String) : String :=
  match a with
  | some s =>
    if s = "" then
      match b with
      | some t => if t = "" then "" else t
      | none => ""
    else s
  | none =>
    match b with
    | some t => if t = "" then "" else t
    | none => ""

/-- JavaScript `s.padStart(2, "0")`. -/
def padStart2 (s : String) : String :=
  if s.length < 2 then String.mk (List.replicate (2 - s.length) '0') ++ s else s

/-- The normalized state id of a feature:
`(f.properties.STATEFP || f.properties.state || "").toString().padStart(2, "0")`
(main.js line 228). -/
def Feature.statefpNorm (f : Feature) : String :=
  padStart2 (jsOrStr f.STATEFP f.state)

/-- `loadStateDistricts` (main.js lines 212-233).  The congress topology
fetch and `topojson.feature` conversion are external; `upstream` is the
resulting full district feature list (`districts.features`).  An unknown
state code throws; otherwise the features whose normalized state id equals
the state fips are kept. -/
def loadStateDistricts (stateCode : String) (upstream : List Feature) :
    Except String FeatureCollection :=
  match objGet STATE_FIPS stateCode with
  | none => Except.error ("Unknown state: " ++ stateCode)
  | some fips =>
      Except.ok { features := upstream.filter (fun f => f.statefpNorm == fips) }

/-- A Leaflet path style as produced by `styleDistrictBase` and
`styleDistrictMode`.  Opacities are stored in hundredths (the source
constants 0.9, 0.30, 0.35 are exact decimals); a `none` field is one the
style object omits. -/
structure DistrictStyle where
  weight : Nat
  opacityPct : Option Nat
  color : String
  dashArray : Option String
  fillOpacityPct : Nat
  fillColor : String
deriving DecidableEq

/-- `styleDistrictBase` (main.js lines 160-169). -/
def styleDistrictBase : DistrictStyle :=
  { weight := 1, opacityPct := some 90, color := "#333", dashArray := none
    fillOpacityPct := 30, fillColor := "#6699cc" }

/-- `styleDistrictMode` (main.js lines 171-199): two recognized modes get
their dedicated styles, everything else falls through to the fair style. -/
def styleDistrictMode (mode : Option String) : DistrictStyle :=
  if mode = some "favor_democrats" then
    { weight := 2, opacityPct := none, color := "#1e3a8a", dashArray := some "3 3"
      fillOpacityPct := 35, fillColor := "#60a5fa" }
  else if mode = some "favor_republicans" then
    { weight := 2, opacityPct := none, color := "#7f1d1d", dashArray := some "3 3"
      fillOpacityPct := 35, fillColor := "#f87171" }
  else
    { weight := 2, opacityPct := none, color := "#065f46", dashArray := some "2 4"
      fillOpacityPct := 35, fillColor := "#34d399" }

/-- A geographic bounding box. -/
structure Bounds where
  minLat : Int
  maxLat : Int
  minLng : Int
  maxLng : Int
deriving DecidableEq

/-- Extend a bounding box by one vertex. -/
def extendBounds (b : Bounds) (c : Int × Int) : Bounds :=
  { minLat := min b.minLat c.1, maxLat := max b.maxLat c.1
    minLng := min b.minLng c.2, maxLng := max b.maxLng c.2 }

/-- All vertices of a feature list. -/
def allCoords : List Feature → List (Int × Int)
  | [] => []
  | f :: fs => f.coords ++ allCoords fs

/-- Models the map library: `geoLayer.getBounds()` on the freshly drawn
collection.  A layer with no geometry has no valid bounds and
`map.fitBounds` throws on it. -/
def getBounds (fc : FeatureCollection) : Except String Bounds :=
  match allCoords fc.features with
  | [] => Except.error "Bounds are not valid"
  | c :: cs =>
      Except.ok (cs.foldl extendBounds
        { minLat := c.1, maxLat := c.1, minLng := c.2, maxLng := c.2 })

/-- The View State plus rendering world of the program: `selectedState`,
`currentGeo`, `geoLayer` (the id of the current district overlay) and the
metrics world, together with the set of overlays currently attached to the
map (`overlays`, keyed by allocation id), the viewport and what the
sidebar shows. -/
structure AppState where
  metrics : MetricsState
  selectedState : Option String
  currentGeo : Option FeatureCollection
  geoLayer : Option Nat
  overlays : List (Nat × FeatureCollection × DistrictStyle)
  nextLayerId : Nat
  viewport : Option Bounds
  shownMetrics : Option MetricsRecord
deriving DecidableEq

/-- `renderDistricts` (main.js lines 235-244): remove the previous district
overlay if any, attach the new one, then `try { map.fitBounds(..) } catch
(_) {}` — a failed bounds computation leaves the viewport untouched. -/
def renderDistricts (st : AppState) (fc : FeatureCollection) (sty : DistrictStyle) :
    AppState :=
  let kept :=
    match st.geoLayer with
    | some i => st.overlays.filter (fun p => p.1 != i)
    | none => st.overlays
  let newViewport :=
    match getBounds fc with
    | Except.ok b => some b
    | Except.error _ => st.viewport
  { st with
    overlays := (st.nextLayerId, fc, sty) :: kept
    geoLayer := some st.nextLayerId
    nextLayerId := st.nextLayerId + 1
    viewport := newViewport }

/-- The fixed fair-mode note string (main.js line 305). -/
def fairPlanNote : String := "Generated fair plan (demo)."

/-- The fixed Democrats-favoring note string (main.js line 308). -/
def demPlanNote : String := "Generated plan favoring Democrats (demo)."

/-- The fixed Republicans-favoring note string (main.js line 311). -/
def repPlanNote : String := "Generated plan favoring Republicans (demo)."

/-- `generatePlan`: the in-place mutation of the metrics record (main.js
lines 302-313).  `m.summary = m.summary || {}` and `m.summary.notes =
m.summary.notes || []` normalize the record, then the mode branch prepends
its note and overwrites the classification; unrecognized modes take the
final `else` branch. -/
def applyPlanMode (mode : Option String) (m : MetricsRecord) : MetricsRecord :=
  let notes0 := ((m.summary.getD { notes := none }).notes).getD []
  if mode = some "fair" then
    { m with classification := some "fair"
             summary := some { notes := some (fairPlanNote :: notes0) } }
  else if mode = some "favor_democrats" then
    { m with classification := some "favors_democrats"
             summary := some { notes := some (demPlanNote :: notes0) } }
  else
    { m with classification := some "favors_republicans"
             summary := some { notes := some (repPlanNote :: notes0) } }

/-- The notes list the program works with after normalization:
`(m.summary.notes) || []`. -/
def notesOf (m : MetricsRecord) : List String :=
  ((m.summary.getD { notes := none }).notes).getD []

/-- `generatePlan` (main.js lines 295-318): no-op when `currentGeo` is
absent; otherwise fetch-or-hit the metrics record, mutate it in place
(`applyPlanMode`), show it, and re-render the unchanged geometry with the
mode style. -/
def generatePlan (st : AppState) (stateCode : String) (mode : Option String)
    (beh : FetchBehaviour) : Except String AppState :=
  match st.currentGeo with
  | none => Except.ok st
  | some geo =>
    match loadMetrics st.metrics stateCode beh with
    | Except.error e => Except.error e
    | Except.ok (ms, idx) =>
      let m1 := applyPlanMode mode ((ms.heap.get? idx).getD fallbackRecord)
      let ms1 := { ms with heap := ms.heap.set idx m1 }
      Except.ok (renderDistricts
        { st with metrics := ms1, shownMetrics := some m1 }
        geo (styleDistrictMode mode))

/-- One resumption segment of `refreshState` (main.js lines 284-293),
split at its `await` points: `sel` is the synchronous head that assigns
`selectedState` and starts the district load; `geoResolve` is the
continuation running when that load resolves (assign `currentGeo`, render,
start the metrics load); `metricsResolve` is the final continuation
(`showMetrics`). -/
inductive RefreshSeg where
  | sel (code : String)
  | geoResolve (code : String)
  | metricsResolve (code : String) (beh : FetchBehaviour)
deriving DecidableEq

/-- Execute one `refreshState` segment. -/
def stepRefresh (upstream : List Feature) (st : AppState) :
    RefreshSeg → Except String AppState
  | .sel code => Except.ok { st with selectedState := some code }
  | .geoResolve code =>
      match loadStateDistricts code upstream with
      | Except.error e => Except.error e
      | Except.ok fc =>
          Except.ok (renderDistricts { st with currentGeo := some fc } fc styleDistrictBase)
  | .metricsResolve code beh =>
      match loadMetrics st.metrics code beh with
      | Except.error e => Except.error e
      | Except.ok (ms, i) =>
          Except.ok { st with metrics := ms, shownMetrics := ms.heap.get? i }

/-- Run a schedule of `refreshState` segments.  The event loop runs
segments of concurrently in-flight `refreshState` calls in the order their
awaited fetches resolve; a schedule records one such order. -/
def runRefreshSegs (upstream : List Feature) : AppState → List RefreshSeg →
    Except String AppState
  | st, [] => Except.ok st
  | st, seg :: rest =>
      match stepRefresh upstream st seg with
      | Except.error e => Except.error e
      | Except.ok st1 => runRefreshSegs upstream st1 rest

/-- A single uninterrupted `refreshState(code)` call is its three segments
in order. -/
def refreshState (upstream : List Feature) (st : AppState) (code : String)
    (beh : FetchBehaviour) : Except String AppState :=
  runRefreshSegs upstream st [.sel code, .geoResolve code, .metricsResolve code beh]

/-- A sample California district feature. -/
def caFeature : Feature :=
  { STATEFP := some "06", state := none, coords := [(32, -124), (42, -114)] }

/-- A sample Wyoming district feature. -/
def wyFeature : Feature :=
  { STATEFP := some "56", state := none, coords := [(41, -111), (45, -104)] }

/-- A sample upstream district list holding one CA and one WY district. -/
def sampleDistricts : List Feature := [caFeature, wyFeature]

/-- The metrics world at page load: empty cache, empty heap, no requests
issued. -/
def emptyMetrics : MetricsState := { heap := [], cache := [], fetchCount := 0 }

/-- The program state right after `initMap`: nothing selected, nothing
rendered. -/
def initialAppState : AppState :=
  { metrics := emptyMetrics, selectedState := none, currentGeo := none
    geoLayer := none, overlays := [], nextLayerId := 0, viewport := none
    shownMetrics := none }

/-- A Ready state: CA selected with its district collection loaded. -/
def readyState : AppState :=
  { initialAppState with
    selectedState := some "CA"
    currentGeo := some { features := [caFeature] } }

/-- A state with one district overlay attached and a fitted viewport. -/
def renderedState : AppState :=
  { readyState with
    overlays := [(0, { features := [caFeature] }, styleDistrictBase)]
    geoLayer := some 0
    nextLayerId := 1
    viewport := some { minLat := 32, maxLat := 42, minLng := -124, maxLng := -114 } }

/-- Appending one element and reading at the old length yields it. -/
theorem get?_append_length {α : Type} : ∀ (l : List α) (a : α),
    (l ++ [a]).get? l.length = some a
  | [], _ => rfl
  | _ :: xs, a => get?_append_length xs a

/-- Reading an in-range updated cell yields the written value. -/
theorem get?_set_self {α : Type} : ∀ (l : List α) (i : Nat) (a : α),
    i < l.length → (l.set i a).get? i = some a
  | [], i, _, h => absurd h (Nat.not_lt_zero i)
  | _ :: _, 0, _, _ => rfl
  | _ :: xs, i + 1, a, h => get?_set_self xs i a (Nat.lt_of_succ_lt_succ h)

/-- A successful object lookup comes from a binding in the list. -/
theorem objGet_mem {α : Type} : ∀ (l : List (String × α)) (k : String) (v : α),
    objGet l k = some v → (k, v) ∈ l := by
  intro l
  induction l with
  | nil => intro k v h; simp [objGet] at h
  | cons p rest ih =>
      intro k v h
      by_cases hp : p.1 = k
      · simp only [objGet, hp, if_pos] at h
        have hpv : p = (k, v) := by
          cases p with
          | mk p1 p2 => simp_all
        rw [← hpv]
        exact List.mem_cons_self p rest
      · simp only [objGet, hp, if_neg, ite_false] at h
        exact List.mem_cons_of_mem p (ih k v h)

/-- A cache hit returns the cached address and leaves the world alone. -/
theorem loadMetrics_hit (ms : MetricsState) (code : String) (beh : FetchBehaviour)
    (i : Nat) (h : objGet ms.cache code = some i) :
    loadMetrics ms code beh = Except.ok (ms, i) := by
  unfold loadMetrics
  rw [h]

/-- A cache miss issues one fetch and stores `storedRecord beh` at a fresh
address. -/
theorem loadMetrics_miss (ms : MetricsState) (code : String) (beh : FetchBehaviour)
    (h : objGet ms.cache code = none) :
    loadMetrics ms code beh =
      Except.ok ({ heap := ms.heap ++ [storedRecord beh]
                   cache := (code, ms.heap.length) :: ms.cache
                   fetchCount := ms.fetchCount + 1 }, ms.heap.length) := by
  unfold loadMetrics
  rw [h]
  cases beh <;> rfl

/-- What `loadMetrics` guarantees about its result on a well-formed world:
the world stays well-formed, the returned address is live and is what the
cache now maps the code to. -/
theorem loadMetrics_wf (ms : MetricsState) (code : String) (beh : FetchBehaviour)
    (ms1 : MetricsState) (i : Nat) (hwf : ms.WF)
    (h : loadMetrics ms code beh = Except.ok (ms1, i)) :
    ms1.WF ∧ i < ms1.heap.length ∧ objGet ms1.cache code = some i := by
  cases h0 : objGet ms.cache code with
  | some j =>
      rw [loadMetrics_hit ms code beh j h0] at h
      have hji : ms = ms1 ∧ j = i := by
        have := Except.ok.inj h
        exact ⟨congrArg Prod.fst this, congrArg Prod.snd this⟩
      obtain ⟨hms, hj⟩ := hji
      subst hms; subst hj
      exact ⟨hwf, hwf _ (objGet_mem _ _ _ h0), h0⟩
  | none =>
      rw [loadMetrics_miss ms code beh h0] at h
      have := Except.ok.inj h
      have hms : ms1 = { heap := ms.heap ++ [storedRecord beh]
                         cache := (code, ms.heap.length) :: ms.cache
                         fetchCount := ms.fetchCount + 1 } :=
        (congrArg Prod.fst this).symm
      have hi : i = ms.heap.length := (congrArg Prod.snd this).symm
      subst hms; subst hi
      refine ⟨?_, ?_, ?_⟩
      · intro p hp
        rcases List.mem_cons.mp hp with hhd | htl
        · subst hhd
          simp [List.length_append]
        · have := hwf p htl
          simp only [List.length_append, List.length_cons, List.length_nil]
          omega
      · simp [List.length_append]
      · simp [objGet]

/-- Overwriting a heap cell preserves well-formedness. -/
theorem MetricsState.WF_set (ms : MetricsState) (i : Nat) (r : MetricsRecord)
    (h : ms.WF) : MetricsState.WF { ms with heap := ms.heap.set i r } := by
  intro p hp
  have := h p hp
  simpa [List.length_set] using this

/-- `renderDistricts` only touches the rendering fields. -/
theorem renderDistricts_metrics (st : AppState) (fc : FeatureCollection)
    (sty : DistrictStyle) : (renderDistricts st fc sty).metrics = st.metrics := rfl

/-- `renderDistricts` does not change `currentGeo`. -/
theorem renderDistricts_currentGeo (st : AppState) (fc : FeatureCollection)
    (sty : DistrictStyle) : (renderDistricts st fc sty).currentGeo = st.currentGeo := rfl

/-- `renderDistricts` does not change `selectedState`. -/
theorem renderDistricts_selectedState (st : AppState) (fc : FeatureCollection)
    (sty : DistrictStyle) :
    (renderDistricts st fc sty).selectedState = st.selectedState := rfl

/-- The overlay list after `renderDistricts`: the fresh layer in front of
the survivors of the removal. -/
theorem renderDistricts_overlays (st : AppState) (fc : FeatureCollection)
    (sty : DistrictStyle) :
    (renderDistricts st fc sty).overlays =
      (st.nextLayerId, fc, sty) ::
        (match st.geoLayer with
         | some i => st.overlays.filter (fun p => p.1 != i)
         | none => st.overlays) := rfl

/-- The fair branch overwrites the classification. -/
theorem applyPlanMode_fair_classification (m : MetricsRecord) :
    (applyPlanMode (some "fair") m).classification = some "fair" := by
  simp [applyPlanMode]

/-- The fair branch prepends exactly the fair note. -/
theorem applyPlanMode_fair_notes (m : MetricsRecord) :
    notesOf (applyPlanMode (some "fair") m) = fairPlanNote :: notesOf m := by
  simp [applyPlanMode, notesOf]

/-- Every mode other than the two recognized ones takes the
Republicans-favoring `else` branch. -/
theorem applyPlanMode_default (mode : Option String) (m : MetricsRecord)
    (h1 : mode ≠ some "fair") (h2 : mode ≠ some "favor_democrats") :
    applyPlanMode mode m =
      { m with classification := some "favors_republicans"
               summary := some { notes := some (repPlanNote :: notesOf m) } } := by
  simp [applyPlanMode, notesOf, h1, h2]

/-- What a successful `generatePlan` run from a state with districts does
to the metrics world: the record the cache maps the code to is the
mode-mutated version of the record `loadMetrics` resolved, the world stays
well-formed and `currentGeo` is untouched.  The final conjunct pins the
resolved record down when the call hit the cache. -/
theorem generatePlan_spec (st : AppState) (code : String) (mode : Option String)
    (beh : FetchBehaviour) (fc : FeatureCollection)
    (hwf : st.metrics.WF) (hgeo : st.currentGeo = some fc) :
    ∃ st1 idx m0,
      generatePlan st code mode beh = Except.ok st1 ∧
      st1.currentGeo = some fc ∧
      st1.metrics.WF ∧
      idx < st1.metrics.heap.length ∧
      objGet st1.metrics.cache code = some idx ∧
      st1.metrics.heap.get? idx = some (applyPlanMode mode m0) ∧
      (∀ i r, objGet st.metrics.cache code = some i →
        st.metrics.heap.get? i = some r → idx = i ∧ m0 = r) := by
  have hok : ∃ ms1 i, loadMetrics st.metrics code beh = Except.ok (ms1, i) := by
    cases h0 : objGet st.metrics.cache code with
    | some j => exact ⟨st.metrics, j, loadMetrics_hit _ _ _ _ h0⟩
    | none => exact ⟨_, _, loadMetrics_miss _ _ _ h0⟩
  obtain ⟨ms1, i, heq⟩ := hok
  obtain ⟨hwf1, hlt1, hget1⟩ := loadMetrics_wf _ _ _ _ _ hwf heq
  refine ⟨renderDistricts
      { st with
        metrics := { ms1 with
          heap := ms1.heap.set i (applyPlanMode mode ((ms1.heap.get? i).getD fallbackRecord)) }
        shownMetrics := some (applyPlanMode mode ((ms1.heap.get? i).getD fallbackRecord)) }
      fc (styleDistrictMode mode),
    i, (ms1.heap.get? i).getD fallbackRecord, ?_, ?_, ?_, ?_, ?_, ?_, ?_⟩
  · unfold generatePlan
    rw [hgeo, heq]
  · rw [renderDistricts_currentGeo]
    exact hgeo
  · rw [renderDistricts_metrics]
    exact MetricsState.WF_set ms1 i _ hwf1
  · rw [renderDistricts_metrics]
    show i < (ms1.heap.set i _).length
    simpa [List.length_set] using hlt1
  · rw [renderDistricts_metrics]
    exact hget1
  · rw [renderDistricts_metrics]
    exact get?_set_self _ _ _ hlt1
  · intro j r hj hr
    have h2 := loadMetrics_hit st.metrics code beh j hj
    rw [heq] at h2
    have h3 := Except.ok.inj h2
    have hms : ms1 = st.metrics := congrArg Prod.fst h3
    have hij : i = j := congrArg Prod.snd h3
    subst hms
    subst hij
    refine ⟨rfl, ?_⟩
    rw [hr]
    rfl

/-- Claim C5: for every state code present in the `STATE_FIPS` table, the
composition `FIPS_STATE[STATE_FIPS[code]]` round-trips to the original
code, so the code-to-fips mapping is injective with a well defined inverse
table. -/
theorem stateFips_roundTrip (p : String × String) (h : p ∈ STATE_FIPS) :
    objGet FIPS_STATE p.2 = some p.1 ∧ objGet STATE_FIPS p.1 = some p.2 := by
  revert p
  decide

/-- Witness for C5 at the concrete entry CA. -/
theorem stateFips_roundTrip_witness :
    objGet FIPS_STATE "06" = some "CA" ∧ objGet STATE_FIPS "CA" = some "06" :=
  stateFips_roundTrip ("CA", "06") (by decide)

/-- Counterexample to Claim C6 as stated: the fixed table does not have 51
entries. -/
theorem stateFips_not_51_entries : STATE_FIPS.length ≠ 51 := by decide

/-- Claim C6 (amended): the fixed state-code-to-numeric-id table contains
exactly 52 entries — the 50 states plus DC plus one territory make 52
keys, all distinct. -/
theorem stateFips_table_size :
    STATE_FIPS.length = 52 ∧ ("DC", "11") ∈ STATE_FIPS ∧ ("PR", "72") ∈ STATE_FIPS ∧
      (STATE_FIPS.map Prod.fst).Nodup := by
  refine ⟨by decide, by decide, by decide, by decide⟩

/-- Claim C2: when the cache misses and the metrics fetch fails (network
error thrown, unparseable body or non-success status), `loadMetrics`
caches and returns the fallback record `{classification: "unknown",
summary: {notes: ["No metrics"]}}`; and on every input whatsoever it
returns normally, never raising to its caller. -/
theorem loadMetrics_failure_fallback (ms : MetricsState) (code : String)
    (beh : FetchBehaviour) (hmiss : objGet ms.cache code = none)
    (hfail : beh.isFailure = true) :
    (∃ ms1, loadMetrics ms code beh = Except.ok (ms1, ms.heap.length) ∧
      ms1.heap.get? ms.heap.length = some fallbackRecord ∧
      objGet ms1.cache code = some ms.heap.length) ∧
    (∀ ms2 code2 beh2, (loadMetrics ms2 code2 beh2).isOk = true) := by
  constructor
  · refine ⟨_, loadMetrics_miss ms code beh hmiss, ?_, ?_⟩
    · show (ms.heap ++ [storedRecord beh]).get? ms.heap.length = some fallbackRecord
      rw [get?_append_length]
      cases beh with
      | ok r => simp [FetchBehaviour.isFailure] at hfail
      | httpError => rfl
      | netThrow => rfl
      | badJson => rfl
    · simp [objGet]
  · intro ms2 code2 beh2
    cases h0 : objGet ms2.cache code2 with
    | some j => rw [loadMetrics_hit _ _ _ _ h0]; rfl
    | none => rw [loadMetrics_miss _ _ _ h0]; rfl

/-- Witness for C2: a cold cache and a rejected fetch for WY. -/
theorem loadMetrics_failure_fallback_witness :
    (∃ ms1, loadMetrics emptyMetrics "WY" FetchBehaviour.netThrow = Except.ok (ms1, 0) ∧
      ms1.heap.get? 0 = some fallbackRecord ∧ objGet ms1.cache "WY" = some 0) ∧
    (∀ ms2 code2 beh2, (loadMetrics ms2 code2 beh2).isOk = true) :=
  loadMetrics_failure_fallback emptyMetrics "WY" FetchBehaviour.netThrow rfl rfl

/-- Claim C8: two sequential `loadMetrics` calls for the same code, under
any endpoint behaviours, issue at most one network fetch in total and both
return the identical record object — the same heap address, with the world
unchanged by the second call. -/
theorem loadMetrics_dedup (ms : MetricsState) (code : String)
    (b1 b2 : FetchBehaviour) :
    ∃ ms1 i, loadMetrics ms code b1 = Except.ok (ms1, i) ∧
      loadMetrics ms1 code b2 = Except.ok (ms1, i) ∧
      ms1.fetchCount ≤ ms.fetchCount + 1 := by
  cases h0 : objGet ms.cache code with
  | some j =>
      refine ⟨ms, j, loadMetrics_hit _ _ _ _ h0, loadMetrics_hit _ _ _ _ h0, ?_⟩
      exact Nat.le_succ _
  | none =>
      refine ⟨_, _, loadMetrics_miss _ _ _ h0, ?_, ?_⟩
      · apply loadMetrics_hit
        simp [objGet]
      · exact Nat.le_refl _

/-- Claim C4: when `currentGeo` is absent, `generatePlan` is a complete
no-op for every state code, mode and endpoint behaviour: the whole program
state — cached metrics records, overlays, styles, everything — is returned
unchanged. -/
theorem generatePlan_noGeo_noop (st : AppState) (code : String)
    (mode : Option String) (beh : FetchBehaviour) (h : st.currentGeo = none) :
    generatePlan st code mode beh = Except.ok st := by
  unfold generatePlan
  rw [h]

/-- Witness for C4 at the initial state. -/
theorem generatePlan_noGeo_noop_witness :
    generatePlan initialAppState "CA" (some "fair") FetchBehaviour.httpError =
      Except.ok initialAppState :=
  generatePlan_noGeo_noop initialAppState "CA" (some "fair") FetchBehaviour.httpError rfl

/-- Claim C3: from any well-formed state with a present district
collection, `generatePlan` in fair mode leaves the cached metrics record
for the code with classification `"fair"` and the fixed fair-mode note
string as the head of its notes; a further call prepends one more
identical note, so the notes list grows by exactly one with no
deduplication. -/
theorem generatePlan_fair_twice (st : AppState) (code : String)
    (b1 b2 : FetchBehaviour) (fc : FeatureCollection)
    (hwf : st.metrics.WF) (hgeo : st.currentGeo = some fc) :
    ∃ st1 st2 idx r1 r2,
      generatePlan st code (some "fair") b1 = Except.ok st1 ∧
      objGet st1.metrics.cache code = some idx ∧
      st1.metrics.heap.get? idx = some r1 ∧
      r1.classification = some "fair" ∧
      (notesOf r1).head? = some fairPlanNote ∧
      generatePlan st1 code (some "fair") b2 = Except.ok st2 ∧
      objGet st2.metrics.cache code = some idx ∧
      st2.metrics.heap.get? idx = some r2 ∧
      r2.classification = some "fair" ∧
      notesOf r2 = fairPlanNote :: notesOf r1 ∧
      (notesOf r2).length = (notesOf r1).length + 1 := by
  obtain ⟨st1, idx, m0, he1, hgeo1, hwf1, hlt1, hc1, hg1, _⟩ :=
    generatePlan_spec st code (some "fair") b1 fc hwf hgeo
  obtain ⟨st2, idx2, m02, he2, hgeo2, hwf2, hlt2, hc2, hg2, hpin⟩ :=
    generatePlan_spec st1 code (some "fair") b2 fc hwf1 hgeo1
  obtain ⟨hidx, hm0⟩ := hpin idx (applyPlanMode (some "fair") m0) hc1 hg1
  subst hidx
  subst hm0
  refine ⟨st1, st2, idx2, applyPlanMode (some "fair") m0,
    applyPlanMode (some "fair") (applyPlanMode (some "fair") m0),
    he1, hc1, hg1, applyPlanMode_fair_classification m0, ?_, he2, hc2, hg2,
    applyPlanMode_fair_classification _, applyPlanMode_fair_notes _, ?_⟩
  · rw [applyPlanMode_fair_notes]
    rfl
  · rw [applyPlanMode_fair_notes]
    simp

/-- Witness for C3: two fair-mode generations from the Ready CA state. -/
theorem generatePlan_fair_twice_witness :
    ∃ st1 st2 idx r1 r2,
      generatePlan readyState "CA" (some "fair") FetchBehaviour.httpError = Except.ok st1 ∧
      objGet st1.metrics.cache "CA" = some idx ∧
      st1.metrics.heap.get? idx = some r1 ∧
      r1.classification = some "fair" ∧
      (notesOf r1).head? = some fairPlanNote ∧
      generatePlan st1 "CA" (some "fair") FetchBehaviour.httpError = Except.ok st2 ∧
      objGet st2.metrics.cache "CA" = some idx ∧
      st2.metrics.heap.get? idx = some r2 ∧
      r2.classification = some "fair" ∧
      notesOf r2 = fairPlanNote :: notesOf r1 ∧
      (notesOf r2).length = (notesOf r1).length + 1 :=
  generatePlan_fair_twice readyState "CA" FetchBehaviour.httpError FetchBehaviour.httpError
    { features := [caFeature] }
    (by intro p hp; exact absurd hp (List.not_mem_nil p)) rfl

/-- Claim C10: every mode other than `"fair"` and `"favor_democrats"` —
arbitrary strings and the absent value alike — takes the
favor-Republicans branch of `generatePlan`: the cached record ends with
classification `"favors_republicans"` and the Republicans-favoring note
prepended. -/
theorem generatePlan_default_mode (st : AppState) (code : String)
    (mode : Option String) (beh : FetchBehaviour) (fc : FeatureCollection)
    (hwf : st.metrics.WF) (hgeo : st.currentGeo = some fc)
    (h1 : mode ≠ some "fair") (h2 : mode ≠ some "favor_democrats") :
    ∃ st1 idx r,
      generatePlan st code mode beh = Except.ok st1 ∧
      objGet st1.metrics.cache code = some idx ∧
      st1.metrics.heap.get? idx = some r ∧
      r.classification = some "favors_republicans" ∧
      (notesOf r).head? = some repPlanNote := by
  obtain ⟨st1, idx, m0, he1, hgeo1, hwf1, hlt1, hc1, hg1, _⟩ :=
    generatePlan_spec st code mode beh fc hwf hgeo
  refine ⟨st1, idx, applyPlanMode mode m0, he1, hc1, hg1, ?_, ?_⟩
  · rw [applyPlanMode_default mode m0 h1 h2]
  · rw [applyPlanMode_default mode m0 h1 h2]
    simp [notesOf]

/-- Witness for C10: an absent mode value on the Ready CA state. -/
theorem generatePlan_default_mode_witness :
    ∃ st1 idx r,
      generatePlan readyState "WY" none FetchBehaviour.netThrow = Except.ok st1 ∧
      objGet st1.metrics.cache "WY" = some idx ∧
      st1.metrics.heap.get? idx = some r ∧
      r.classification = some "favors_republicans" ∧
      (notesOf r).head? = some repPlanNote :=
  generatePlan_default_mode readyState "WY" none FetchBehaviour.netThrow
    { features := [caFeature] }
    (by intro p hp; exact absurd hp (List.not_mem_nil p)) rfl
    (by decide) (by decide)

/-- Claim C7: for every state code present in the fixed table,
`loadStateDistricts` returns a collection in which every feature carries
exactly the two-digit numeric id of that state, and when the upstream data
holds no matching features the result is the empty collection, not an error. -/
theorem loadStateDistricts_filtered (code fips : String) (upstream : List Feature)
    (h : objGet STATE_FIPS code = some fips) :
    ∃ fc, loadStateDistricts code upstream = Except.ok fc ∧
      (∀ f ∈ fc.features, f.statefpNorm = fips) ∧
      ((∀ f ∈ upstream, f.statefpNorm ≠ fips) → fc.features = []) := by
  refine ⟨{ features := upstream.filter (fun f => f.statefpNorm == fips) }, ?_, ?_, ?_⟩
  · unfold loadStateDistricts
    rw [h]
  · intro f hf
    have hmem := List.mem_filter.mp hf
    exact eq_of_beq hmem.2
  · intro hnone
    show upstream.filter (fun f => f.statefpNorm == fips) = []
    rw [List.filter_eq_nil_iff]
    intro f hf
    simp only [beq_iff_eq]
    exact hnone f hf

/-- Witness for C7 at CA over the sample upstream data. -/
theorem loadStateDistricts_filtered_witness :
    ∃ fc, loadStateDistricts "CA" sampleDistricts = Except.ok fc ∧
      (∀ f ∈ fc.features, f.statefpNorm = "06") ∧
      ((∀ f ∈ sampleDistricts, f.statefpNorm ≠ "06") → fc.features = []) :=
  loadStateDistricts_filtered "CA" "06" sampleDistricts (by decide)

/-- Claim C9: rendering a collection with zero features does not throw —
the failing bounds computation is swallowed — and leaves the viewport
unchanged; the previously rendered district overlay, if any, is still
removed, and the new empty overlay is attached. -/
theorem renderDistricts_empty_safe (st : AppState) (sty : DistrictStyle)
    (hgl : ∀ i, st.geoLayer = some i → i < st.nextLayerId) :
    getBounds { features := [] } = Except.error "Bounds are not valid" ∧
    (renderDistricts st { features := [] } sty).viewport = st.viewport ∧
    (renderDistricts st { features := [] } sty).geoLayer = some st.nextLayerId ∧
    (st.nextLayerId, { features := [] }, sty) ∈
      (renderDistricts st { features := [] } sty).overlays ∧
    (∀ i, st.geoLayer = some i →
      ∀ q ∈ (renderDistricts st { features := [] } sty).overlays, q.1 ≠ i) := by
  refine ⟨rfl, rfl, rfl, ?_, ?_⟩
  · rw [renderDistricts_overlays]
    exact List.mem_cons_self _ _
  · intro i hi q hq
    rw [renderDistricts_overlays, hi] at hq
    rcases List.mem_cons.mp hq with hq1 | hq2
    · subst hq1
      have := hgl i hi
      show st.nextLayerId ≠ i
      omega
    · have hne := (List.mem_filter.mp hq2).2
      simpa using hne

/-- Witness for C9: an empty render on a state with a live overlay and a
fitted viewport. -/
theorem renderDistricts_empty_safe_witness :
    getBounds { features := [] } = Except.error "Bounds are not valid" ∧
    (renderDistricts renderedState { features := [] } styleDistrictBase).viewport =
      renderedState.viewport ∧
    (renderDistricts renderedState { features := [] } styleDistrictBase).geoLayer =
      some renderedState.nextLayerId ∧
    (renderedState.nextLayerId, { features := [] }, styleDistrictBase) ∈
      (renderDistricts renderedState { features := [] } styleDistrictBase).overlays ∧
    (∀ i, renderedState.geoLayer = some i →
      ∀ q ∈ (renderDistricts renderedState { features := [] } styleDistrictBase).overlays,
        q.1 ≠ i) :=
  renderDistricts_empty_safe renderedState styleDistrictBase
    (by
      intro i h
      have h0 : (0 : Nat) = i := Option.some.inj h
      show i < 1
      omega)

/-- A legal event-loop interleaving of `refreshState("WY")` immediately
followed by `refreshState("CA")`: both synchronous heads run before either
district fetch resolves, then the CA fetch resolves first and the stale WY
fetch last. -/
def staleSchedule : List RefreshSeg :=
  [.sel "WY", .sel "CA", .geoResolve "CA", .geoResolve "WY",
   .metricsResolve "CA" .httpError, .metricsResolve "WY" .httpError]

/-- Claim C1, evaluated at the failing interleaving: `refreshState` has no
guard that the resolving request still matches `selectedState`, so when
the superseded WY district fetch resolves after the CA one, the run ends
with `selectedState = "CA"` while `currentGeo` and the attached district
overlay hold the WY collection — the stale request has overwritten the
rendered View State, and the WY collection is not the CA one. -/
theorem refreshState_stale_overwrite :
    (runRefreshSegs sampleDistricts initialAppState staleSchedule).map
        (fun st => (st.selectedState, st.currentGeo,
          st.overlays.map (fun p => (p.1, p.2.1)))) =
      Except.ok (some "CA", some { features := [wyFeature] },
        [(1, { features := [wyFeature] })]) ∧
    loadStateDistricts "CA" sampleDistricts =
      Except.ok { features := [caFeature] } ∧
    FeatureCollection.mk [wyFeature] ≠ FeatureCollection.mk [caFeature] := by
  refine ⟨rfl, rfl, by decide⟩
